import Mathlib

/-!
# Verification of the migration engine and connection layer

A shallow embedding, in Lean 4, of the core of the `mcp-supabase-self-hosted`
server: the identifier sanitizer (`src/utils/validation.ts`), the connection
manager (`src/utils/connection.ts`), the migration engine (the migration tools
module), and the SQL-building path of the backup tool (`src/tools/admin.ts`).

Modelling conventions:
* JavaScript exceptions are modelled with an explicit `Thrown` type at each
  handler boundary: `Thrown.raised msg` means an exception escaped the
  handler, `Thrown.returned v` means the handler returned the result object
  `v` to its caller.
* The `{success, ...}` / `{success:false, error}` result objects are
  modelled by `ToolRes`.
* Timestamps are `Nat`; the database clock (`NOW()`) and the generated row
  id are passed to each operation as explicit parameters.
* The PostgreSQL session is modelled by a `DbState`: the migration store
  table plus an abstract user schema.  User-supplied migration SQL
  (`up_sql` / `down_sql`) is given meaning by a parameter
  `runSql : String → UserSchema → Except String UserSchema`: it may fail,
  and acts on the user schema.  The in-transaction `UPDATE` of the
  migration row is likewise a fallible pg query; its outcome is the
  parameter `updErr : Option String` of apply/rollback.  `BEGIN` /
  `COMMIT` / `ROLLBACK` carry their PostgreSQL meaning: a transaction that
  fails leaves the state exactly as it was at `BEGIN`.
* Query parameters that are `undefined` in JavaScript (a missing field read
  through a type cast) are modelled as `Option.none`; the pg driver sends
  them as SQL `NULL`, which matches no row, and a JavaScript template
  literal renders them as the string "undefined".
-/

namespace Mcp

/-- A single quote character, used by the Spanish error messages of the code. -/
def sq : String := Char.toString (Char.ofNat 39)

/-- Outcome at a handler boundary: either an exception escaped (`raised`)
or a result object was returned (`returned`). -/
inductive Thrown (α : Type) where
  | raised (msg : String)
  | returned (v : α)
deriving Repr, DecidableEq

/-- A tool result object: `{success:true, ...payload}` or
`{success:false, error}`. -/
inductive ToolRes (α : Type) where
  | success (v : α)
  | failure (error : String)
deriving Repr, DecidableEq

/-! ## Identifier sanitizer (`src/utils/validation.ts`) -/

/-- `isValidSQLIdentifier` from `src/utils/validation.ts`: the test of the
JavaScript regex `/^[a-zA-Z_][a-zA-Z0-9_]*$/` (`Char.isAlpha` and
`Char.isDigit` are exactly the ASCII classes `[a-zA-Z]` and `[0-9]`). -/
def isValidSQLIdentifier (s : String) : Bool :=
  match s.data with
  | [] => false
  | c :: cs =>
    (c.isAlpha || c == Char.ofNat 95) &&
      cs.all (fun d => d.isAlpha || d.isDigit || d == Char.ofNat 95)

/-- `sanitizeSQLIdentifier` from `src/utils/validation.ts`: returns the
identifier unchanged when valid, otherwise throws an error naming it. -/
def sanitizeSQLIdentifier (s : String) : Except String String :=
  if isValidSQLIdentifier s then .ok s
  else .error ("Identificador SQL inválido: " ++ s)

/-- Spec-side reading of the first character class of the regex
`^[A-Za-z_][A-Za-z0-9_]*$`, written with explicit code-point ranges. -/
def regexHeadChar (c : Char) : Bool :=
  (65 ≤ c.toNat && c.toNat ≤ 90) || (97 ≤ c.toNat && c.toNat ≤ 122) ||
    c.toNat == 95

/-- Spec-side reading of the continuation character class `[A-Za-z0-9_]`. -/
def regexTailChar (c : Char) : Bool :=
  regexHeadChar c || (48 ≤ c.toNat && c.toNat ≤ 57)

/-- Spec-side statement of matching `^[A-Za-z_][A-Za-z0-9_]*$`: a nonempty
string whose head matches the first class and whose tail matches the
continuation class. -/
def matchesIdentRegex (s : String) : Bool :=
  match s.data with
  | [] => false
  | c :: cs => regexHeadChar c && cs.all regexTailChar

/-! ## Connection manager (`src/utils/connection.ts`) -/

/-- One `SupabaseConnection` instance; `connected` records whether its pg
client has successfully connected. -/
structure ConnInstance where
  connected : Bool
deriving Repr, DecidableEq

/-- The module-level state of `connection.ts`: the process-wide singleton
variable `connection : SupabaseConnection | null`. -/
structure ConnModule where
  conn : Option ConnInstance
deriving Repr, DecidableEq

/-- The error message thrown by `getConnection` when the singleton is null. -/
def notInitializedMsg : String :=
  "Conexión no inicializada. Llama a initConnection() primero."

/-- `getConnection`: returns the singleton, or throws when it is null. -/
def getConnection (s : ConnModule) : Except String ConnInstance :=
  match s.conn with
  | none => .error notInitializedMsg
  | some c => .ok c

/-- `SupabaseConnection.connect`: attempts `pgClient.connect()`.  The dial
outcome is the parameter `dialErr`: `none` means the session opens,
`some e` means the driver throws `e`, which `connect` logs and rethrows. -/
def SupabaseConnection.connect (dialErr : Option String) (c : ConnInstance) :
    Except String ConnInstance :=
  match dialErr with
  | some e => .error e
  | none => .ok { c with connected := true }

/-- `SupabaseConnection.disconnect`: attempts `pgClient.end()` inside a
`try`/`catch` that logs and swallows any failure (`endErr`), so disconnect
never throws. -/
def SupabaseConnection.disconnect (endErr : Option String) (c : ConnInstance) :
    ConnInstance :=
  match endErr with
  | some _ => c
  | none => { c with connected := false }

/-- `initConnection`: assigns the singleton to a brand-new (not yet
connected) instance, then awaits `connect()`.  When the dial fails the
error propagates, but the assignment has already happened. -/
def initConnection (dialErr : Option String) (_s : ConnModule) :
    Except String ConnInstance × ConnModule :=
  let c : ConnInstance := { connected := false }
  let s1 : ConnModule := { conn := some c }
  match SupabaseConnection.connect dialErr c with
  | .error e => (.error e, s1)
  | .ok c2 => (.ok c2, { conn := some c2 })

/-- `closeConnection`: when the singleton is set, disconnects it (never
throws) and resets the singleton to null; otherwise does nothing. -/
def closeConnection (endErr : Option String) (s : ConnModule) : ConnModule :=
  match s.conn with
  | none => s
  | some c =>
    let _ := SupabaseConnection.disconnect endErr c
    { conn := none }

/-! ## Migration store and engine (migration tools module) -/

/-- One row of the `supabase_migrations` table, as defined by
`ensureMigrationTable`: `id UUID PRIMARY KEY`, `name UNIQUE`, `up_sql`,
`down_sql`, `applied BOOLEAN DEFAULT FALSE`, `applied_at` nullable,
`created_at`. -/
structure MigrationRecord where
  id : String
  name : String
  upSql : String
  downSql : String
  applied : Bool
  appliedAt : Option Nat
  createdAt : Nat
deriving Repr, DecidableEq

/-- The abstract user schema that user-supplied migration SQL acts on,
modelled as a log of applied schema effects. -/
abbrev UserSchema : Type := List String

/-- The visible state of the PostgreSQL session: whether the
`supabase_migrations` table exists, its rows, and the user schema. -/
structure DbState where
  tableExists : Bool
  migrations : List MigrationRecord
  schema : UserSchema
deriving Repr, DecidableEq

/-- Semantics of executing one user-supplied SQL string against the user
schema: it either succeeds with a new schema or fails with a driver error.
The engine is the only writer of the migration store itself. -/
def SqlSem : Type := String → UserSchema → Except String UserSchema

/-- `ensureMigrationTable`: `CREATE TABLE IF NOT EXISTS supabase_migrations`
— idempotent, touches no existing rows. -/
def ensureMigrationTable (st : DbState) : DbState :=
  { st with tableExists := true }

/-- The pg driver sends an `undefined` query parameter as SQL `NULL`;
`SELECT ... WHERE id = NULL` matches no row. -/
def findRecord (st : DbState) (migrationId : Option String) :
    Option MigrationRecord :=
  migrationId.bind (fun i => st.migrations.find? (fun r => r.id == i))

/-- How a JavaScript template literal renders the (possibly `undefined`)
`migrationId`. -/
def idText : Option String → String
  | none => "undefined"
  | some s => s

/-- Error message for a missing migration id (`apply` / `rollback`). -/
def notFoundMsg (i : Option String) : String :=
  "Migración con ID " ++ sq ++ idText i ++ sq ++ " no encontrada"

/-- Error message when `apply` finds `applied = TRUE`. -/
def alreadyAppliedMsg (name : String) : String :=
  "Migración " ++ sq ++ name ++ sq ++ " ya está aplicada"

/-- Error message when `rollback` finds `applied = FALSE`. -/
def notAppliedMsg (name : String) : String :=
  "Migración " ++ sq ++ name ++ sq ++ " no está aplicada"

/-- Success message of `apply`. -/
def appliedOkMsg (name : String) : String :=
  "Migración " ++ sq ++ name ++ sq ++ " aplicada exitosamente"

/-- Success message of `rollback`. -/
def rolledBackMsg (name : String) : String :=
  "Migración " ++ sq ++ name ++ sq ++ " revertida exitosamente"

/-- Success message of `create`. -/
def createdMsg (name : String) : String :=
  "Migración " ++ sq ++ name ++ sq ++ " creada exitosamente"

/-- The pg unique-constraint violation raised when inserting a duplicate
migration name. -/
def dupKeyMsg : String :=
  "duplicate key value violates unique constraint \"supabase_migrations_name_key\""

/-- `UPDATE supabase_migrations SET applied = TRUE, applied_at = NOW()
WHERE id = $1` — one update writing both columns together. -/
def setApplied (ms : List MigrationRecord) (i : String) (now : Nat) :
    List MigrationRecord :=
  ms.map (fun r =>
    if r.id == i then { r with applied := true, appliedAt := some now } else r)

/-- `UPDATE supabase_migrations SET applied = FALSE, applied_at = NULL
WHERE id = $1` — one update writing both columns together. -/
def setRolledBack (ms : List MigrationRecord) (i : String) :
    List MigrationRecord :=
  ms.map (fun r =>
    if r.id == i then { r with applied := false, appliedAt := none } else r)

/-- The raw arguments object of `create_migration`; a field read that is
absent in the JSON object is `none`. -/
structure CreateArgs where
  name : Option String
  up : Option String
  down : Option String
deriving Repr, DecidableEq

/-- `validateInput(CreateMigrationSchema, args)`: the zod schema requires
`name`, `up` and `down` to be present strings; on failure `validateInput`
throws `Validación fallida: <path>: <message>, ...`. -/
def validateCreateInput (args : CreateArgs) :
    Except String (String × String × String) :=
  match args.name, args.up, args.down with
  | some n, some u, some d => .ok (n, u, d)
  | _, _, _ =>
    let missing :=
      (if args.name.isNone then ["name: Required"] else []) ++
        (if args.up.isNone then ["up: Required"] else []) ++
          (if args.down.isNone then ["down: Required"] else [])
    .error ("Validación fallida: " ++ String.intercalate ", " missing)

/-- The row `RETURNING id, name, created_at` of a successful insert. -/
structure CreatedRow where
  id : String
  name : String
  createdAt : Nat
deriving Repr, DecidableEq

/-- Payload of a successful `create_migration`: the returned row plus the
message. -/
structure CreateSuccess where
  migration : CreatedRow
  message : String
deriving Repr, DecidableEq

/-- `handleCreateMigration`.  `validateInput` and `getConnection` run
before the `try` block: their exceptions escape the handler.  Inside the
`try`, the store is ensured and the insert either succeeds (the table
defaults give `applied = FALSE`, `applied_at = NULL`) or raises the
unique-constraint violation, which the `catch` converts into
`{success:false, error}`. -/
def handleCreateMigration (newId : String) (now : Nat) (cm : ConnModule)
    (st : DbState) (args : CreateArgs) : Thrown (ToolRes CreateSuccess) × DbState :=
  match validateCreateInput args with
  | .error e => (.raised e, st)
  | .ok (name, up, down) =>
    match getConnection cm with
    | .error e => (.raised e, st)
    | .ok _ =>
      let st1 := ensureMigrationTable st
      if st1.migrations.any (fun r => r.name == name) then
        (.returned (.failure dupKeyMsg), st1)
      else
        let newRec : MigrationRecord :=
          { id := newId, name := name, upSql := up, downSql := down,
            applied := false, appliedAt := none, createdAt := now }
        (.returned (.success { migration := { id := newId, name := name, createdAt := now },
                               message := createdMsg name }),
         { st1 with migrations := st1.migrations ++ [newRec] })

/-- `handleApplyMigration`.  The arguments are read through a bare type
cast (no runtime validation); `getConnection` runs before the `try`.
Inside the `try`: ensure the store, fetch the row by id, reject an absent
row or an already-applied row, then `BEGIN`; execute `up_sql`; run the
`UPDATE ... SET applied = TRUE, applied_at = NOW()` query; `COMMIT` — with
`ROLLBACK` restoring the `BEGIN` state on any failure, whose error the
outer `catch` converts into `{success:false, error}`.  Both in-transaction
queries are fallible pg queries: the user SQL through `runSql`, and the
flag update through `updErr` (`none` means the `UPDATE` succeeds, `some e`
means the driver throws `e` — for instance because the migration SQL
dropped the store table — so the transaction is rolled back, undoing the
schema change as well).  The third component is the list of user-supplied
SQL strings that were executed. -/
def handleApplyMigration (runSql : SqlSem) (updErr : Option String)
    (now : Nat) (cm : ConnModule) (st : DbState)
    (migrationId : Option String) :
    Thrown (ToolRes String) × DbState × List String :=
  match getConnection cm with
  | .error e => (.raised e, st, [])
  | .ok _ =>
    let st1 := ensureMigrationTable st
    match findRecord st1 migrationId with
    | none => (.returned (.failure (notFoundMsg migrationId)), st1, [])
    | some m =>
      if m.applied then
        (.returned (.failure (alreadyAppliedMsg m.name)), st1, [])
      else
        match runSql m.upSql st1.schema with
        | .error e => (.returned (.failure e), st1, [m.upSql])
        | .ok sch =>
          match updErr with
          | some e => (.returned (.failure e), st1, [m.upSql])
          | none =>
            (.returned (.success (appliedOkMsg m.name)),
             { st1 with migrations := setApplied st1.migrations m.id now,
                        schema := sch },
             [m.upSql])

/-- `handleRollbackMigration`: symmetric to `handleApplyMigration`,
executing `down_sql` and then the fallible
`UPDATE ... SET applied = FALSE, applied_at = NULL` query inside the
transaction, with the same `ROLLBACK`-on-failure discipline. -/
def handleRollbackMigration (runSql : SqlSem) (updErr : Option String)
    (cm : ConnModule) (st : DbState) (migrationId : Option String) :
    Thrown (ToolRes String) × DbState × List String :=
  match getConnection cm with
  | .error e => (.raised e, st, [])
  | .ok _ =>
    let st1 := ensureMigrationTable st
    match findRecord st1 migrationId with
    | none => (.returned (.failure (notFoundMsg migrationId)), st1, [])
    | some m =>
      if m.applied then
        match runSql m.downSql st1.schema with
        | .error e => (.returned (.failure e), st1, [m.downSql])
        | .ok sch =>
          match updErr with
          | some e => (.returned (.failure e), st1, [m.downSql])
          | none =>
            (.returned (.success (rolledBackMsg m.name)),
             { st1 with migrations := setRolledBack st1.migrations m.id,
                        schema := sch },
             [m.downSql])
      else
        (.returned (.failure (notAppliedMsg m.name)), st1, [])

/-- One row of the `list_migrations` response
(`SELECT id, name, applied, applied_at, created_at`). -/
structure MigrationSummary where
  id : String
  name : String
  applied : Bool
  appliedAt : Option Nat
  createdAt : Nat
deriving Repr, DecidableEq

/-- Insertion step for `ORDER BY created_at ASC`. -/
def insertByCreatedAt (r : MigrationRecord) :
    List MigrationRecord → List MigrationRecord
  | [] => [r]
  | x :: xs =>
    if r.createdAt < x.createdAt then r :: x :: xs
    else x :: insertByCreatedAt r xs

/-- The rows of the store sorted by `created_at` ascending. -/
def sortByCreatedAt (ms : List MigrationRecord) : List MigrationRecord :=
  ms.foldr insertByCreatedAt []

/-- Projection of a stored row onto the listed columns. -/
def summarize (r : MigrationRecord) : MigrationSummary :=
  { id := r.id, name := r.name, applied := r.applied,
    appliedAt := r.appliedAt, createdAt := r.createdAt }

/-- `handleListMigrations`: a read-only select over the store, ordered by
creation time. -/
def handleListMigrations (cm : ConnModule) (st : DbState) :
    Thrown (ToolRes (List MigrationSummary)) × DbState :=
  match getConnection cm with
  | .error e => (.raised e, st)
  | .ok _ =>
    let st1 := ensureMigrationTable st
    (.returned (.success ((sortByCreatedAt st1.migrations).map summarize)), st1)

/-- The `status` object of `get_migration_status`. -/
structure StatusObj where
  totalMigrations : Nat
  appliedMigrations : Nat
  pendingMigrations : Nat
  lastAppliedAt : Option Nat
deriving Repr, DecidableEq

/-- `handleGetMigrationStatus`: one aggregate select — `COUNT(*)`,
`COUNT(CASE WHEN applied = TRUE THEN 1 END)`,
`COUNT(CASE WHEN applied = FALSE THEN 1 END)`, and `MAX(applied_at)`,
which in SQL is the maximum over all non-null `applied_at` values. -/
def handleGetMigrationStatus (cm : ConnModule) (st : DbState) :
    Thrown (ToolRes StatusObj) × DbState :=
  match getConnection cm with
  | .error e => (.raised e, st)
  | .ok _ =>
    let st1 := ensureMigrationTable st
    (.returned (.success
      { totalMigrations := st1.migrations.length,
        appliedMigrations := (st1.migrations.filter (fun r => r.applied)).length,
        pendingMigrations := (st1.migrations.filter (fun r => !r.applied)).length,
        lastAppliedAt := (st1.migrations.filterMap (fun r => r.appliedAt)).max? }),
     st1)

/-! ## Backup tool SQL construction (`src/tools/admin.ts`) -/

/-- The per-table read query of `handleBackupDatabase`
(`SELECT * FROM ${table}`): the table name is interpolated into the SQL
text directly, with no call to the identifier sanitizer on this path. -/
def backupSelectQuery (table : String) : String :=
  "SELECT * FROM " ++ table

/-- The queries `handleBackupDatabase` issues for an explicit, non-empty
`tables` argument. -/
def backupTableQueries (tables : List String) : List String :=
  tables.map backupSelectQuery

/-- The per-table delete of `handleRestoreDatabase` with `dropExisting`
(`DELETE FROM ${tableName}`), likewise built without sanitization. -/
def restoreDeleteQuery (tableName : String) : String :=
  "DELETE FROM " ++ tableName

/-! ## Derived predicates -/

/-- Whether a handler outcome is a returned result object (as opposed to an
exception that escaped the handler). -/
def Thrown.isReturned {α : Type} : Thrown α → Bool
  | .raised _ => false
  | .returned _ => true

/-- The record invariant of the spec: `applied=false` implies
`appliedAt=null`. -/
def StoreInv (ms : List MigrationRecord) : Prop :=
  ∀ r ∈ ms, r.applied = false → r.appliedAt = none

instance (ms : List MigrationRecord) : Decidable (StoreInv ms) := by
  unfold StoreInv
  infer_instance

/-- Every record of `new` comes from a record of `old` with the same
`id`, `name`, `upSql` and `downSql`: the identity fields of existing
records are never rewritten. -/
def idFieldsPreserved (old new : List MigrationRecord) : Prop :=
  ∀ r2 ∈ new, ∃ r1 ∈ old, r2.id = r1.id ∧ r2.name = r1.name ∧
    r2.upSql = r1.upSql ∧ r2.downSql = r1.downSql

/-- Spec-side aggregate: the maximum `appliedAt` among the records with
`applied=true` (absent when none is applied). -/
def lastAppliedAmongApplied (ms : List MigrationRecord) : Option Nat :=
  ((ms.filter (fun r => r.applied)).filterMap (fun r => r.appliedAt)).max?

/-! ## Concrete fixtures for the witness theorems -/

/-- A connection module whose singleton was never initialized. -/
def exConnNone : ConnModule := { conn := none }

/-- A connection module holding a connected instance. -/
def exConnUp : ConnModule := { conn := some { connected := true } }

/-- A fresh database: no store table, no records, empty user schema. -/
def exDb0 : DbState := { tableExists := false, migrations := [], schema := [] }

/-- A `create_migration` argument object with every required field absent. -/
def exNoArgs : CreateArgs := { name := none, up := none, down := none }

/-- A well-formed `create_migration` argument object. -/
def exArgs : CreateArgs :=
  { name := some "add_comments", up := some "CREATE TABLE comments ()",
    down := some "DROP TABLE comments" }

/-- SQL semantics in which every statement succeeds and is appended to the
schema log. -/
def exOkSql : SqlSem := fun q sch => .ok (sch ++ [q])

/-- SQL semantics in which every statement fails with a driver error. -/
def exFailSql : SqlSem := fun _ _ => .error "syntax error in migration SQL"

/-- A pending migration record. -/
def exPending : MigrationRecord :=
  { id := "m1", name := "add_users", upSql := "CREATE TABLE users ()",
    downSql := "DROP TABLE users", applied := false, appliedAt := none,
    createdAt := 1 }

/-- An applied migration record. -/
def exApplied : MigrationRecord :=
  { id := "m2", name := "add_posts", upSql := "CREATE TABLE posts ()",
    downSql := "DROP TABLE posts", applied := true, appliedAt := some 5,
    createdAt := 2 }

/-- A second pending migration record. -/
def exPending2 : MigrationRecord :=
  { id := "m3", name := "add_tags", upSql := "CREATE TABLE tags ()",
    downSql := "DROP TABLE tags", applied := false, appliedAt := none,
    createdAt := 3 }

/-- A store with one pending and one applied migration. -/
def exDb1 : DbState :=
  { tableExists := true, migrations := [exPending, exApplied], schema := [] }

/-- A store with three migrations of which exactly one is applied. -/
def exDb3 : DbState :=
  { tableExists := true, migrations := [exPending, exApplied, exPending2],
    schema := [] }

/-! ## Character-class bridging lemmas for the sanitizer -/

theorem char_eq_95 (c : Char) : (c = Char.ofNat 95) ↔ (c.toNat = 95) := by
  rw [Char.ext_iff]
  constructor
  · intro h; rw [show c.toNat = c.val.toNat from rfl, h]; rfl
  · intro h
    exact UInt32.toNat.inj (by rw [show c.val.toNat = c.toNat from rfl, h]; rfl)

theorem headCharBridge (c : Char) :
    (c.isAlpha || c == Char.ofNat 95) = regexHeadChar c := by
  rw [Bool.eq_iff_iff]
  simp only [Char.isAlpha, Char.isUpper, Char.isLower, regexHeadChar,
    Bool.or_eq_true, Bool.and_eq_true, decide_eq_true_eq, beq_iff_eq, char_eq_95,
    UInt32.le_def, BitVec.le_def]
  rfl

theorem tailCharBridge (c : Char) :
    (c.isAlpha || c.isDigit || c == Char.ofNat 95) = regexTailChar c := by
  rw [Bool.eq_iff_iff]
  simp only [Char.isAlpha, Char.isUpper, Char.isLower, Char.isDigit,
    regexTailChar, regexHeadChar,
    Bool.or_eq_true, Bool.and_eq_true, decide_eq_true_eq, beq_iff_eq, char_eq_95,
    UInt32.le_def, BitVec.le_def]
  tauto

theorem validIdent_eq_regex (s : String) :
    isValidSQLIdentifier s = matchesIdentRegex s := by
  unfold isValidSQLIdentifier matchesIdentRegex
  cases s.data with
  | nil => rfl
  | cons c cs =>
    show ((c.isAlpha || c == Char.ofNat 95) &&
        (cs.all fun d => d.isAlpha || d.isDigit || d == Char.ofNat 95)) =
      (regexHeadChar c && cs.all regexTailChar)
    rw [headCharBridge]
    have ht : (fun d => d.isAlpha || d.isDigit || d == Char.ofNat 95) = regexTailChar :=
      funext tailCharBridge
    rw [ht]

/-! ## Behavior lemmas for the migration handlers -/

theorem apply_fails_atomically (runSql : SqlSem) (updErr : Option String)
    (now : Nat) (cm : ConnModule)
    (st : DbState) (c : ConnInstance) (i : String) (m : MigrationRecord)
    (e : String) (hc : cm.conn = some c)
    (hf : findRecord (ensureMigrationTable st) (some i) = some m)
    (ha : m.applied = false)
    (hr : runSql m.upSql st.schema = .error e) :
    handleApplyMigration runSql updErr now cm st (some i) =
      (.returned (.failure e), ensureMigrationTable st, [m.upSql]) := by
  unfold handleApplyMigration getConnection
  rw [hc]
  have hsch : (ensureMigrationTable st).schema = st.schema := rfl
  simp only [hf, ha, hsch, hr]
  simp

theorem apply_update_fails_atomically (runSql : SqlSem) (e : String)
    (now : Nat) (cm : ConnModule)
    (st : DbState) (c : ConnInstance) (i : String) (m : MigrationRecord)
    (sch : UserSchema) (hc : cm.conn = some c)
    (hf : findRecord (ensureMigrationTable st) (some i) = some m)
    (ha : m.applied = false)
    (hr : runSql m.upSql st.schema = .ok sch) :
    handleApplyMigration runSql (some e) now cm st (some i) =
      (.returned (.failure e), ensureMigrationTable st, [m.upSql]) := by
  unfold handleApplyMigration getConnection
  rw [hc]
  have hsch : (ensureMigrationTable st).schema = st.schema := rfl
  simp only [hf, ha, hsch, hr]
  simp

theorem rollback_fails_atomically (runSql : SqlSem) (updErr : Option String)
    (cm : ConnModule)
    (st : DbState) (c : ConnInstance) (i : String) (m : MigrationRecord)
    (e : String) (hc : cm.conn = some c)
    (hf : findRecord (ensureMigrationTable st) (some i) = some m)
    (ha : m.applied = true)
    (hr : runSql m.downSql st.schema = .error e) :
    handleRollbackMigration runSql updErr cm st (some i) =
      (.returned (.failure e), ensureMigrationTable st, [m.downSql]) := by
  unfold handleRollbackMigration getConnection
  rw [hc]
  have hsch : (ensureMigrationTable st).schema = st.schema := rfl
  simp only [hf, ha, hsch, hr]
  simp

theorem rollback_update_fails_atomically (runSql : SqlSem) (e : String)
    (cm : ConnModule)
    (st : DbState) (c : ConnInstance) (i : String) (m : MigrationRecord)
    (sch : UserSchema) (hc : cm.conn = some c)
    (hf : findRecord (ensureMigrationTable st) (some i) = some m)
    (ha : m.applied = true)
    (hr : runSql m.downSql st.schema = .ok sch) :
    handleRollbackMigration runSql (some e) cm st (some i) =
      (.returned (.failure e), ensureMigrationTable st, [m.downSql]) := by
  unfold handleRollbackMigration getConnection
  rw [hc]
  have hsch : (ensureMigrationTable st).schema = st.schema := rfl
  simp only [hf, ha, hsch, hr]
  simp

theorem apply_pending_succeeds (runSql : SqlSem) (now : Nat) (cm : ConnModule)
    (st : DbState) (c : ConnInstance) (i : String) (m : MigrationRecord)
    (sch : UserSchema) (hc : cm.conn = some c)
    (hf : findRecord (ensureMigrationTable st) (some i) = some m)
    (ha : m.applied = false)
    (hr : runSql m.upSql st.schema = .ok sch) :
    handleApplyMigration runSql none now cm st (some i) =
      (.returned (.success (appliedOkMsg m.name)),
       { tableExists := true, migrations := setApplied st.migrations m.id now,
         schema := sch },
       [m.upSql]) := by
  unfold handleApplyMigration getConnection
  rw [hc]
  have hsch : (ensureMigrationTable st).schema = st.schema := rfl
  simp only [hf, ha, hsch, hr]
  simp [ensureMigrationTable]

theorem rollback_applied_succeeds (runSql : SqlSem) (cm : ConnModule)
    (st : DbState) (c : ConnInstance) (i : String) (m : MigrationRecord)
    (sch : UserSchema) (hc : cm.conn = some c)
    (hf : findRecord (ensureMigrationTable st) (some i) = some m)
    (ha : m.applied = true)
    (hr : runSql m.downSql st.schema = .ok sch) :
    handleRollbackMigration runSql none cm st (some i) =
      (.returned (.success (rolledBackMsg m.name)),
       { tableExists := true, migrations := setRolledBack st.migrations m.id,
         schema := sch },
       [m.downSql]) := by
  unfold handleRollbackMigration getConnection
  rw [hc]
  have hsch : (ensureMigrationTable st).schema = st.schema := rfl
  simp only [hf, ha, hsch, hr]
  simp [ensureMigrationTable]

theorem apply_already_applied_rejected (runSql : SqlSem)
    (updErr : Option String) (now : Nat)
    (cm : ConnModule) (st : DbState) (c : ConnInstance) (i : String)
    (m : MigrationRecord) (hc : cm.conn = some c)
    (hf : findRecord (ensureMigrationTable st) (some i) = some m)
    (ha : m.applied = true) :
    handleApplyMigration runSql updErr now cm st (some i) =
      (.returned (.failure (alreadyAppliedMsg m.name)),
       ensureMigrationTable st, []) := by
  unfold handleApplyMigration getConnection
  rw [hc]
  simp only [hf, ha]
  simp

theorem rollback_pending_rejected (runSql : SqlSem) (updErr : Option String)
    (cm : ConnModule)
    (st : DbState) (c : ConnInstance) (i : String) (m : MigrationRecord)
    (hc : cm.conn = some c)
    (hf : findRecord (ensureMigrationTable st) (some i) = some m)
    (ha : m.applied = false) :
    handleRollbackMigration runSql updErr cm st (some i) =
      (.returned (.failure (notAppliedMsg m.name)),
       ensureMigrationTable st, []) := by
  unfold handleRollbackMigration getConnection
  rw [hc]
  simp only [hf, ha]
  simp

theorem missing_id_rejected (runSql : SqlSem) (updErr : Option String)
    (now : Nat) (cm : ConnModule)
    (st : DbState) (c : ConnInstance) (oid : Option String)
    (hc : cm.conn = some c)
    (hf : findRecord (ensureMigrationTable st) oid = none) :
    handleApplyMigration runSql updErr now cm st oid =
      (.returned (.failure (notFoundMsg oid)), ensureMigrationTable st, []) ∧
    handleRollbackMigration runSql updErr cm st oid =
      (.returned (.failure (notFoundMsg oid)), ensureMigrationTable st, []) := by
  unfold handleApplyMigration handleRollbackMigration getConnection
  rw [hc]
  simp only [hf]
  simp

theorem create_behavior (newId : String) (now : Nat) (cm : ConnModule)
    (st : DbState) (args : CreateArgs) (c : ConnInstance) (n u d : String)
    (hc : cm.conn = some c) (hv : validateCreateInput args = .ok (n, u, d)) :
    handleCreateMigration newId now cm st args =
      (if st.migrations.any (fun r => r.name == n) then
        (.returned (.failure dupKeyMsg), ensureMigrationTable st)
      else
        (.returned (.success { migration := { id := newId, name := n, createdAt := now },
                               message := createdMsg n }),
         { tableExists := true,
           migrations := st.migrations ++
             [{ id := newId, name := n, upSql := u, downSql := d,
                applied := false, appliedAt := none, createdAt := now }],
           schema := st.schema })) := by
  unfold handleCreateMigration getConnection
  rw [hv, hc]
  simp only
  cases hd : st.migrations.any (fun r => r.name == n) with
  | true => simp [ensureMigrationTable, hd]
  | false => simp [ensureMigrationTable, hd]

/-! ## No-throw lemmas: the `try`/`catch` of each handler -/

theorem apply_no_throw (runSql : SqlSem) (updErr : Option String)
    (now : Nat) (cm : ConnModule)
    (st : DbState) (oid : Option String) (c : ConnInstance)
    (hc : cm.conn = some c) :
    (handleApplyMigration runSql updErr now cm st oid).1.isReturned = true := by
  unfold handleApplyMigration getConnection
  rw [hc]
  cases hf : findRecord (ensureMigrationTable st) oid with
  | none => simp [hf, Thrown.isReturned]
  | some m =>
    simp only [hf]
    cases ha : m.applied with
    | true => simp [ha, Thrown.isReturned]
    | false =>
      simp only [ha, Bool.false_eq_true, if_false]
      cases hr : runSql m.upSql (ensureMigrationTable st).schema with
      | error e => simp [hr, Thrown.isReturned]
      | ok sch =>
        cases hu : updErr <;> simp [hr, hu, Thrown.isReturned]

theorem rollback_no_throw (runSql : SqlSem) (updErr : Option String)
    (cm : ConnModule)
    (st : DbState) (oid : Option String) (c : ConnInstance)
    (hc : cm.conn = some c) :
    (handleRollbackMigration runSql updErr cm st oid).1.isReturned = true := by
  unfold handleRollbackMigration getConnection
  rw [hc]
  cases hf : findRecord (ensureMigrationTable st) oid with
  | none => simp [hf, Thrown.isReturned]
  | some m =>
    simp only [hf]
    cases ha : m.applied with
    | false => simp [ha, Thrown.isReturned]
    | true =>
      simp only [ha, if_true]
      cases hr : runSql m.downSql (ensureMigrationTable st).schema with
      | error e => simp [hr, Thrown.isReturned]
      | ok sch =>
        cases hu : updErr <;> simp [hr, hu, Thrown.isReturned]

theorem create_no_throw (newId : String) (now : Nat) (cm : ConnModule)
    (st : DbState) (args : CreateArgs) (c : ConnInstance) (n u d : String)
    (hc : cm.conn = some c) (hv : validateCreateInput args = .ok (n, u, d)) :
    (handleCreateMigration newId now cm st args).1.isReturned = true := by
  unfold handleCreateMigration getConnection
  rw [hv, hc]
  cases hd : (ensureMigrationTable st).migrations.any (fun r => r.name == n) with
  | true => simp [hd, Thrown.isReturned]
  | false => simp [hd, Thrown.isReturned]

/-! ## Store-invariant lemmas -/

theorem storeInv_setApplied (ms : List MigrationRecord) (i : String) (now : Nat)
    (h : StoreInv ms) : StoreInv (setApplied ms i now) := by
  intro r hr hra
  unfold setApplied at hr
  obtain ⟨r1, hr1, hmap⟩ := List.mem_map.mp hr
  by_cases hid : (r1.id == i) = true
  · rw [hid] at hmap
    simp at hmap
    rw [← hmap] at hra
    simp at hra
  · rw [Bool.not_eq_true] at hid
    rw [hid] at hmap
    simp at hmap
    subst hmap
    exact h r1 hr1 hra

theorem storeInv_setRolledBack (ms : List MigrationRecord) (i : String)
    (h : StoreInv ms) : StoreInv (setRolledBack ms i) := by
  intro r hr hra
  unfold setRolledBack at hr
  obtain ⟨r1, hr1, hmap⟩ := List.mem_map.mp hr
  by_cases hid : (r1.id == i) = true
  · rw [hid] at hmap
    simp at hmap
    rw [← hmap]
  · rw [Bool.not_eq_true] at hid
    rw [hid] at hmap
    simp at hmap
    subst hmap
    exact h r1 hr1 hra

theorem storeInv_append_pending (ms : List MigrationRecord)
    (r : MigrationRecord) (hr : r.appliedAt = none) (h : StoreInv ms) :
    StoreInv (ms ++ [r]) := by
  intro x hx hxa
  rcases List.mem_append.mp hx with hx1 | hx2
  · exact h x hx1 hxa
  · simp at hx2
    subst hx2
    exact hr

theorem idFields_setApplied (ms : List MigrationRecord) (i : String)
    (now : Nat) : idFieldsPreserved ms (setApplied ms i now) := by
  intro r2 hr2
  unfold setApplied at hr2
  obtain ⟨r1, hr1, hmap⟩ := List.mem_map.mp hr2
  refine ⟨r1, hr1, ?_⟩
  by_cases hid : (r1.id == i) = true
  · rw [hid] at hmap; simp at hmap; rw [← hmap]; simp
  · rw [Bool.not_eq_true] at hid; rw [hid] at hmap; simp at hmap; rw [hmap]
    simp

theorem idFields_setRolledBack (ms : List MigrationRecord) (i : String) :
    idFieldsPreserved ms (setRolledBack ms i) := by
  intro r2 hr2
  unfold setRolledBack at hr2
  obtain ⟨r1, hr1, hmap⟩ := List.mem_map.mp hr2
  refine ⟨r1, hr1, ?_⟩
  by_cases hid : (r1.id == i) = true
  · rw [hid] at hmap; simp at hmap; rw [← hmap]; simp
  · rw [Bool.not_eq_true] at hid; rw [hid] at hmap; simp at hmap; rw [hmap]
    simp

theorem idFields_refl (ms : List MigrationRecord) : idFieldsPreserved ms ms := by
  intro r hr
  exact ⟨r, hr, rfl, rfl, rfl, rfl⟩

/-! ## State-shape lemmas -/

theorem apply_state_shape (runSql : SqlSem) (updErr : Option String)
    (now : Nat) (cm : ConnModule)
    (st : DbState) (oid : Option String) :
    (handleApplyMigration runSql updErr now cm st oid).2.1.migrations =
      st.migrations ∨
    (∃ m, findRecord (ensureMigrationTable st) oid = some m ∧ m.applied = false ∧
      (handleApplyMigration runSql updErr now cm st oid).2.1.migrations =
        setApplied st.migrations m.id now) := by
  unfold handleApplyMigration
  cases hg : getConnection cm with
  | error e => left; rfl
  | ok c =>
    simp only
    cases hf : findRecord (ensureMigrationTable st) oid with
    | none => left; rfl
    | some m =>
      simp only [hf]
      cases ha : m.applied with
      | true => left; simp [ensureMigrationTable]
      | false =>
        simp only [ha, Bool.false_eq_true, if_false]
        cases hr : runSql m.upSql (ensureMigrationTable st).schema with
        | error e => left; simp [hr, ensureMigrationTable]
        | ok sch =>
          cases hu : updErr with
          | some e => left; simp [hr, hu, ensureMigrationTable]
          | none =>
            right
            exact ⟨m, rfl, ha, by simp [hr, hu, ensureMigrationTable]⟩

theorem rollback_state_shape (runSql : SqlSem) (updErr : Option String)
    (cm : ConnModule)
    (st : DbState) (oid : Option String) :
    (handleRollbackMigration runSql updErr cm st oid).2.1.migrations =
      st.migrations ∨
    (∃ m, findRecord (ensureMigrationTable st) oid = some m ∧ m.applied = true ∧
      (handleRollbackMigration runSql updErr cm st oid).2.1.migrations =
        setRolledBack st.migrations m.id) := by
  unfold handleRollbackMigration
  cases hg : getConnection cm with
  | error e => left; rfl
  | ok c =>
    simp only
    cases hf : findRecord (ensureMigrationTable st) oid with
    | none => left; rfl
    | some m =>
      simp only [hf]
      cases ha : m.applied with
      | false => left; simp [ha, ensureMigrationTable]
      | true =>
        simp only [ha, if_true]
        cases hr : runSql m.downSql (ensureMigrationTable st).schema with
        | error e => left; simp [hr, ensureMigrationTable]
        | ok sch =>
          cases hu : updErr with
          | some e => left; simp [hr, hu, ensureMigrationTable]
          | none =>
            right
            exact ⟨m, rfl, ha, by simp [hr, hu, ensureMigrationTable]⟩

theorem apply_preserves_fields_inv (runSql : SqlSem) (updErr : Option String)
    (now : Nat)
    (cm : ConnModule) (st : DbState) (oid : Option String) :
    idFieldsPreserved st.migrations
      (handleApplyMigration runSql updErr now cm st oid).2.1.migrations ∧
    (StoreInv st.migrations →
      StoreInv
        (handleApplyMigration runSql updErr now cm st oid).2.1.migrations) := by
  rcases apply_state_shape runSql updErr now cm st oid with h | ⟨m, hf, ha, h⟩
  · rw [h]; exact ⟨idFields_refl _, fun hi => hi⟩
  · rw [h]
    exact ⟨idFields_setApplied _ _ _, storeInv_setApplied _ _ _⟩

theorem rollback_preserves_fields_inv (runSql : SqlSem)
    (updErr : Option String) (cm : ConnModule)
    (st : DbState) (oid : Option String) :
    idFieldsPreserved st.migrations
      (handleRollbackMigration runSql updErr cm st oid).2.1.migrations ∧
    (StoreInv st.migrations →
      StoreInv
        (handleRollbackMigration runSql updErr cm st oid).2.1.migrations) := by
  rcases rollback_state_shape runSql updErr cm st oid with h | ⟨m, hf, ha, h⟩
  · rw [h]; exact ⟨idFields_refl _, fun hi => hi⟩
  · rw [h]
    exact ⟨idFields_setRolledBack _ _, storeInv_setRolledBack _ _⟩

theorem readonly_handlers_state (cm : ConnModule) (st : DbState) :
    (handleListMigrations cm st).2.migrations = st.migrations ∧
    (handleGetMigrationStatus cm st).2.migrations = st.migrations := by
  cases hg : getConnection cm <;>
    simp [handleListMigrations, handleGetMigrationStatus, hg,
      ensureMigrationTable]

theorem create_preserves_inv (newId : String) (now : Nat) (cm : ConnModule)
    (st : DbState) (args : CreateArgs) (hi : StoreInv st.migrations) :
    StoreInv (handleCreateMigration newId now cm st args).2.migrations := by
  unfold handleCreateMigration
  cases hv : validateCreateInput args with
  | error e => simpa
  | ok t =>
    obtain ⟨n, u, d⟩ := t
    cases hg : getConnection cm with
    | error e => simpa
    | ok c =>
      simp only
      cases hd : (ensureMigrationTable st).migrations.any (fun r => r.name == n) with
      | true => simpa [hd, ensureMigrationTable]
      | false =>
        simp only [hd, Bool.false_eq_true, if_false]
        exact storeInv_append_pending _ _ rfl hi

/-! ## Validation lemmas -/

theorem validate_error_of_missing (args : CreateArgs)
    (hbad : args.name = none ∨ args.up = none ∨ args.down = none) :
    ∃ e, validateCreateInput args = .error e := by
  rcases hn : args.name with _ | n <;> rcases hu : args.up with _ | u <;>
    rcases hd : args.down with _ | d <;>
    simp only [validateCreateInput, hn, hu, hd] <;>
    first
      | exact ⟨_, rfl⟩
      | (rcases hbad with h | h | h <;> simp_all)

theorem create_validates_first (newId : String) (now : Nat) (cm : ConnModule)
    (st : DbState) (args : CreateArgs)
    (hbad : args.name = none ∨ args.up = none ∨ args.down = none) :
    ∃ e, handleCreateMigration newId now cm st args = (.raised e, st) := by
  obtain ⟨e, he⟩ := validate_error_of_missing args hbad
  refine ⟨e, ?_⟩
  unfold handleCreateMigration
  rw [he]

/-! ## Status aggregate lemmas -/

theorem filterMap_appliedAt_of_inv (ms : List MigrationRecord)
    (h : StoreInv ms) :
    ms.filterMap (fun r => r.appliedAt) =
      (ms.filter (fun r => r.applied)).filterMap (fun r => r.appliedAt) := by
  induction ms with
  | nil => rfl
  | cons r rs ih =>
    have hrs : StoreInv rs := fun x hx => h x (List.mem_cons_of_mem r hx)
    cases ha : r.applied with
    | true =>
      simp only [List.filterMap_cons, List.filter_cons, ha, if_true]
      cases r.appliedAt <;> simp [ih hrs]
    | false =>
      have hnone : r.appliedAt = none := h r (List.mem_cons_self r rs) ha
      simp only [List.filterMap_cons, List.filter_cons, ha, hnone]
      simp [ih hrs]

theorem length_filter_partition (ms : List MigrationRecord) :
    (ms.filter (fun r => r.applied)).length +
      (ms.filter (fun r => !r.applied)).length = ms.length := by
  induction ms with
  | nil => rfl
  | cons r rs ih =>
    cases ha : r.applied <;>
      simp [List.filter_cons, ha, ← ih, Nat.add_assoc, Nat.add_comm,
        Nat.add_left_comm]

theorem status_behavior (cm : ConnModule) (st : DbState) (c : ConnInstance)
    (hc : cm.conn = some c) (hinv : StoreInv st.migrations) :
    handleGetMigrationStatus cm st =
      (.returned (.success
        { totalMigrations := st.migrations.length,
          appliedMigrations := (st.migrations.filter (fun r => r.applied)).length,
          pendingMigrations := (st.migrations.filter (fun r => !r.applied)).length,
          lastAppliedAt := lastAppliedAmongApplied st.migrations }),
       ensureMigrationTable st) := by
  unfold handleGetMigrationStatus getConnection
  rw [hc]
  simp only [ensureMigrationTable]
  rw [filterMap_appliedAt_of_inv st.migrations hinv]
  rfl

theorem list_no_throw (cm : ConnModule) (st : DbState) (c : ConnInstance)
    (hc : cm.conn = some c) :
    (handleListMigrations cm st).1.isReturned = true := by
  unfold handleListMigrations getConnection
  rw [hc]
  rfl

theorem status_no_throw (cm : ConnModule) (st : DbState) (c : ConnInstance)
    (hc : cm.conn = some c) :
    (handleGetMigrationStatus cm st).1.isReturned = true := by
  unfold handleGetMigrationStatus getConnection
  rw [hc]
  rfl

/-! ## Claim theorems -/

/-- Claim C1: apply and rollback are atomic on failure.  When the
user-supplied migration SQL — or the subsequent in-transaction flag
update — fails, the operation returns `{success:false, error}` carrying
the underlying database error and the final state is exactly the
pre-transaction state (the migration record, in particular `applied` and
`appliedAt`, and the user schema are unchanged, even when the schema
change had already executed before the flag update failed; the only side
effect is the idempotent creation of the store table). -/
theorem apply_rollback_atomic_on_failure :
    (∀ (runSql : SqlSem) (updErr : Option String) (now : Nat)
       (cm : ConnModule) (st : DbState)
       (c : ConnInstance) (i : String) (m : MigrationRecord) (e : String),
       cm.conn = some c →
       findRecord (ensureMigrationTable st) (some i) = some m →
       m.applied = false →
       runSql m.upSql st.schema = .error e →
       handleApplyMigration runSql updErr now cm st (some i) =
         (.returned (.failure e), ensureMigrationTable st, [m.upSql])) ∧
    (∀ (runSql : SqlSem) (e : String) (now : Nat) (cm : ConnModule)
       (st : DbState)
       (c : ConnInstance) (i : String) (m : MigrationRecord)
       (sch : UserSchema),
       cm.conn = some c →
       findRecord (ensureMigrationTable st) (some i) = some m →
       m.applied = false →
       runSql m.upSql st.schema = .ok sch →
       handleApplyMigration runSql (some e) now cm st (some i) =
         (.returned (.failure e), ensureMigrationTable st, [m.upSql])) ∧
    (∀ (runSql : SqlSem) (updErr : Option String) (cm : ConnModule)
       (st : DbState)
       (c : ConnInstance) (i : String) (m : MigrationRecord) (e : String),
       cm.conn = some c →
       findRecord (ensureMigrationTable st) (some i) = some m →
       m.applied = true →
       runSql m.downSql st.schema = .error e →
       handleRollbackMigration runSql updErr cm st (some i) =
         (.returned (.failure e), ensureMigrationTable st, [m.downSql])) ∧
    (∀ (runSql : SqlSem) (e : String) (cm : ConnModule) (st : DbState)
       (c : ConnInstance) (i : String) (m : MigrationRecord)
       (sch : UserSchema),
       cm.conn = some c →
       findRecord (ensureMigrationTable st) (some i) = some m →
       m.applied = true →
       runSql m.downSql st.schema = .ok sch →
       handleRollbackMigration runSql (some e) cm st (some i) =
         (.returned (.failure e), ensureMigrationTable st, [m.downSql])) :=
  ⟨apply_fails_atomically, apply_update_fails_atomically,
   rollback_fails_atomically, rollback_update_fails_atomically⟩

/-- Claim C1 witness: on a concrete store, a failing `upSQL` on the
pending record, a failing flag update after a successful `upSQL`, a
failing `downSQL` on the applied record, and a failing flag update after a
successful `downSQL`. -/
theorem apply_rollback_atomic_on_failure_witness :
    handleApplyMigration exFailSql none 9 exConnUp exDb1 (some "m1") =
      (.returned (.failure "syntax error in migration SQL"),
       ensureMigrationTable exDb1, [exPending.upSql]) ∧
    handleApplyMigration exOkSql (some "update failed") 9 exConnUp exDb1
        (some "m1") =
      (.returned (.failure "update failed"),
       ensureMigrationTable exDb1, [exPending.upSql]) ∧
    handleRollbackMigration exFailSql none exConnUp exDb1 (some "m2") =
      (.returned (.failure "syntax error in migration SQL"),
       ensureMigrationTable exDb1, [exApplied.downSql]) ∧
    handleRollbackMigration exOkSql (some "update failed") exConnUp exDb1
        (some "m2") =
      (.returned (.failure "update failed"),
       ensureMigrationTable exDb1, [exApplied.downSql]) :=
  ⟨apply_rollback_atomic_on_failure.1 exFailSql none 9 exConnUp exDb1
     { connected := true } "m1" exPending "syntax error in migration SQL"
     rfl rfl rfl rfl,
   apply_rollback_atomic_on_failure.2.1 exOkSql "update failed" 9 exConnUp
     exDb1 { connected := true } "m1" exPending ["CREATE TABLE users ()"]
     rfl rfl rfl rfl,
   apply_rollback_atomic_on_failure.2.2.1 exFailSql none exConnUp exDb1
     { connected := true } "m2" exApplied "syntax error in migration SQL"
     rfl rfl rfl rfl,
   apply_rollback_atomic_on_failure.2.2.2 exOkSql "update failed" exConnUp
     exDb1 { connected := true } "m2" exApplied ["DROP TABLE posts"]
     rfl rfl rfl rfl⟩

/-- Claim C2: the migration state machine.  Apply on a pending record whose
`upSQL` succeeds returns success and sets `applied=true, appliedAt=now`;
apply on an applied record fails with AlreadyApplied and executes no
migration SQL (empty trace); rollback on an applied record whose `downSQL`
succeeds returns success and sets `applied=false, appliedAt=null`; rollback
on a pending record fails with NotApplied and executes no migration SQL;
and either operation on a nonexistent id fails with NotFound and executes
no migration SQL. -/
theorem migration_state_machine :
    (∀ (runSql : SqlSem) (now : Nat) (cm : ConnModule) (st : DbState)
       (c : ConnInstance) (i : String) (m : MigrationRecord) (sch : UserSchema),
       cm.conn = some c →
       findRecord (ensureMigrationTable st) (some i) = some m →
       m.applied = false →
       runSql m.upSql st.schema = .ok sch →
       handleApplyMigration runSql none now cm st (some i) =
         (.returned (.success (appliedOkMsg m.name)),
          { tableExists := true, migrations := setApplied st.migrations m.id now,
            schema := sch },
          [m.upSql])) ∧
    (∀ (runSql : SqlSem) (updErr : Option String) (now : Nat)
       (cm : ConnModule) (st : DbState)
       (c : ConnInstance) (i : String) (m : MigrationRecord),
       cm.conn = some c →
       findRecord (ensureMigrationTable st) (some i) = some m →
       m.applied = true →
       handleApplyMigration runSql updErr now cm st (some i) =
         (.returned (.failure (alreadyAppliedMsg m.name)),
          ensureMigrationTable st, [])) ∧
    (∀ (runSql : SqlSem) (cm : ConnModule) (st : DbState)
       (c : ConnInstance) (i : String) (m : MigrationRecord) (sch : UserSchema),
       cm.conn = some c →
       findRecord (ensureMigrationTable st) (some i) = some m →
       m.applied = true →
       runSql m.downSql st.schema = .ok sch →
       handleRollbackMigration runSql none cm st (some i) =
         (.returned (.success (rolledBackMsg m.name)),
          { tableExists := true, migrations := setRolledBack st.migrations m.id,
            schema := sch },
          [m.downSql])) ∧
    (∀ (runSql : SqlSem) (updErr : Option String) (cm : ConnModule)
       (st : DbState)
       (c : ConnInstance) (i : String) (m : MigrationRecord),
       cm.conn = some c →
       findRecord (ensureMigrationTable st) (some i) = some m →
       m.applied = false →
       handleRollbackMigration runSql updErr cm st (some i) =
         (.returned (.failure (notAppliedMsg m.name)),
          ensureMigrationTable st, [])) ∧
    (∀ (runSql : SqlSem) (updErr : Option String) (now : Nat)
       (cm : ConnModule) (st : DbState)
       (c : ConnInstance) (oid : Option String),
       cm.conn = some c →
       findRecord (ensureMigrationTable st) oid = none →
       handleApplyMigration runSql updErr now cm st oid =
         (.returned (.failure (notFoundMsg oid)), ensureMigrationTable st, []) ∧
       handleRollbackMigration runSql updErr cm st oid =
         (.returned (.failure (notFoundMsg oid)), ensureMigrationTable st, [])) :=
  ⟨apply_pending_succeeds, apply_already_applied_rejected,
   rollback_applied_succeeds, rollback_pending_rejected, missing_id_rejected⟩

/-- Claim C2 witness: each transition and each rejection on a concrete
store. -/
theorem migration_state_machine_witness :
    handleApplyMigration exOkSql none 9 exConnUp exDb1 (some "m1") =
      (.returned (.success (appliedOkMsg exPending.name)),
       { tableExists := true,
         migrations := setApplied exDb1.migrations exPending.id 9,
         schema := ["CREATE TABLE users ()"] },
       [exPending.upSql]) ∧
    handleApplyMigration exOkSql none 9 exConnUp exDb1 (some "m2") =
      (.returned (.failure (alreadyAppliedMsg exApplied.name)),
       ensureMigrationTable exDb1, []) ∧
    handleRollbackMigration exOkSql none exConnUp exDb1 (some "m2") =
      (.returned (.success (rolledBackMsg exApplied.name)),
       { tableExists := true,
         migrations := setRolledBack exDb1.migrations exApplied.id,
         schema := ["DROP TABLE posts"] },
       [exApplied.downSql]) ∧
    handleRollbackMigration exOkSql none exConnUp exDb1 (some "m1") =
      (.returned (.failure (notAppliedMsg exPending.name)),
       ensureMigrationTable exDb1, []) ∧
    handleApplyMigration exOkSql none 9 exConnUp exDb1 (some "zz") =
      (.returned (.failure (notFoundMsg (some "zz"))),
       ensureMigrationTable exDb1, []) ∧
    handleRollbackMigration exOkSql none exConnUp exDb1 (some "zz") =
      (.returned (.failure (notFoundMsg (some "zz"))),
       ensureMigrationTable exDb1, []) :=
  ⟨migration_state_machine.1 exOkSql 9 exConnUp exDb1 { connected := true }
     "m1" exPending ["CREATE TABLE users ()"] rfl rfl rfl rfl,
   migration_state_machine.2.1 exOkSql none 9 exConnUp exDb1
     { connected := true } "m2" exApplied rfl rfl rfl,
   migration_state_machine.2.2.1 exOkSql exConnUp exDb1 { connected := true }
     "m2" exApplied ["DROP TABLE posts"] rfl rfl rfl rfl,
   migration_state_machine.2.2.2.1 exOkSql none exConnUp exDb1
     { connected := true } "m1" exPending rfl rfl rfl,
   (migration_state_machine.2.2.2.2 exOkSql none 9 exConnUp exDb1
     { connected := true } (some "zz") rfl rfl).1,
   (migration_state_machine.2.2.2.2 exOkSql none 9 exConnUp exDb1
     { connected := true } (some "zz") rfl rfl).2⟩

/-- Claim C3 counterexample: operations can throw past the tool boundary.
`create_migration` with an empty argument object throws the validation
error (the `validateInput` call runs before the `try` block), and any
handler called before `init` throws the NotInitialized error (the
`getConnection` call also runs before the `try` block). -/
theorem boundary_throw_counterexample :
    handleCreateMigration "m9" 7 exConnUp exDb0 exNoArgs =
      (.raised "Validación fallida: name: Required, up: Required, down: Required",
       exDb0) ∧
    (handleApplyMigration exOkSql none 0 exConnNone exDb0 (some "m1")).1 =
      .raised notInitializedMsg :=
  ⟨rfl, rfl⟩

/-- Claim C3 (amended): once input validation and connection acquisition
have succeeded — both run before the handler's `try` block — every error
raised inside the operation is caught at its boundary and converted into a
`{success:false, error}` result object; no exception escapes from inside
the `try`. -/
theorem errors_caught_inside_try :
    (∀ (newId : String) (now : Nat) (cm : ConnModule) (st : DbState)
       (args : CreateArgs) (c : ConnInstance) (n u d : String),
       cm.conn = some c →
       validateCreateInput args = .ok (n, u, d) →
       (handleCreateMigration newId now cm st args).1.isReturned = true) ∧
    (∀ (runSql : SqlSem) (updErr : Option String) (now : Nat)
       (cm : ConnModule) (st : DbState)
       (oid : Option String) (c : ConnInstance),
       cm.conn = some c →
       (handleApplyMigration runSql updErr now cm st oid).1.isReturned =
         true) ∧
    (∀ (runSql : SqlSem) (updErr : Option String) (cm : ConnModule)
       (st : DbState)
       (oid : Option String) (c : ConnInstance),
       cm.conn = some c →
       (handleRollbackMigration runSql updErr cm st oid).1.isReturned =
         true) ∧
    (∀ (cm : ConnModule) (st : DbState) (c : ConnInstance),
       cm.conn = some c →
       (handleListMigrations cm st).1.isReturned = true) ∧
    (∀ (cm : ConnModule) (st : DbState) (c : ConnInstance),
       cm.conn = some c →
       (handleGetMigrationStatus cm st).1.isReturned = true) := by
  refine ⟨?_, ?_, ?_, list_no_throw, status_no_throw⟩
  · intro newId now cm st args c n u d hc hv
    exact create_no_throw newId now cm st args c n u d hc hv
  · intro runSql updErr now cm st oid c hc
    exact apply_no_throw runSql updErr now cm st oid c hc
  · intro runSql updErr cm st oid c hc
    exact rollback_no_throw runSql updErr cm st oid c hc

/-- Claim C3 (amended) witness: with a live connection, each handler
returns a result object even when the migration SQL fails. -/
theorem errors_caught_inside_try_witness :
    (handleCreateMigration "m9" 7 exConnUp exDb1 exArgs).1.isReturned = true ∧
    (handleApplyMigration exFailSql none 9 exConnUp exDb1
      (some "m1")).1.isReturned = true ∧
    (handleRollbackMigration exOkSql (some "update failed") exConnUp exDb1
      (some "m2")).1.isReturned = true ∧
    (handleListMigrations exConnUp exDb1).1.isReturned = true ∧
    (handleGetMigrationStatus exConnUp exDb1).1.isReturned = true :=
  ⟨errors_caught_inside_try.1 "m9" 7 exConnUp exDb1 exArgs { connected := true }
     "add_comments" "CREATE TABLE comments ()" "DROP TABLE comments" rfl rfl,
   errors_caught_inside_try.2.1 exFailSql none 9 exConnUp exDb1 (some "m1")
     { connected := true } rfl,
   errors_caught_inside_try.2.2.1 exOkSql (some "update failed") exConnUp
     exDb1 (some "m2") { connected := true } rfl,
   errors_caught_inside_try.2.2.2.1 exConnUp exDb1 { connected := true } rfl,
   errors_caught_inside_try.2.2.2.2 exConnUp exDb1 { connected := true } rfl⟩

/-- Claim C4: `sanitize(s)` succeeds exactly when `s` matches
`^[A-Za-z_][A-Za-z0-9_]*$`, returning `s` unchanged; on mismatch it fails
with the InvalidIdentifier error naming the offending string. -/
theorem sanitize_matches_regex_spec (s : String) :
    sanitizeSQLIdentifier s =
      if matchesIdentRegex s then .ok s
      else .error ("Identificador SQL inválido: " ++ s) := by
  unfold sanitizeSQLIdentifier
  rw [validIdent_eq_regex]

/-- Claim C5: the backup and restore paths interpolate a user-supplied
table name into SQL text without passing it through the identifier
sanitizer: at a concrete injection-shaped input that the sanitizer rejects,
`handleBackupDatabase` builds `SELECT * FROM <raw name>` and
`handleRestoreDatabase` builds `DELETE FROM <raw name>` verbatim. -/
theorem backup_restore_unsanitized_identifier :
    isValidSQLIdentifier "users; DROP TABLE secrets; --" = false ∧
    sanitizeSQLIdentifier "users; DROP TABLE secrets; --" =
      .error ("Identificador SQL inválido: users; DROP TABLE secrets; --") ∧
    backupTableQueries ["users; DROP TABLE secrets; --"] =
      ["SELECT * FROM users; DROP TABLE secrets; --"] ∧
    restoreDeleteQuery "users; DROP TABLE secrets; --" =
      "DELETE FROM users; DROP TABLE secrets; --" :=
  ⟨by decide, by rfl, rfl, rfl⟩

/-- Claim C6: the record invariants.  Create inserts a record with
`applied=false, appliedAt=null` (or leaves the store unchanged on a
duplicate name); apply either leaves the store unchanged or performs the
single update setting `applied=true, appliedAt=now` on the fetched pending
record; rollback either leaves the store unchanged or performs the single
update setting `applied=false, appliedAt=null`; list and status never
mutate the store; the identity fields (`id`, `name`, `upSQL`, `downSQL`) of
existing records are preserved by apply and rollback; and the invariant
`applied=false → appliedAt=null` is preserved by every operation. -/
theorem migration_record_invariants :
    (∀ (newId : String) (now : Nat) (cm : ConnModule) (st : DbState)
       (args : CreateArgs) (c : ConnInstance) (n u d : String),
       cm.conn = some c →
       validateCreateInput args = .ok (n, u, d) →
       handleCreateMigration newId now cm st args =
         (if st.migrations.any (fun r => r.name == n) then
           (.returned (.failure dupKeyMsg), ensureMigrationTable st)
         else
           (.returned (.success
              { migration := { id := newId, name := n, createdAt := now },
                message := createdMsg n }),
            { tableExists := true,
              migrations := st.migrations ++
                [{ id := newId, name := n, upSql := u, downSql := d,
                   applied := false, appliedAt := none, createdAt := now }],
              schema := st.schema }))) ∧
    (∀ (runSql : SqlSem) (updErr : Option String) (now : Nat)
       (cm : ConnModule) (st : DbState)
       (oid : Option String),
       ((handleApplyMigration runSql updErr now cm st oid).2.1.migrations =
          st.migrations ∨
        ∃ m, findRecord (ensureMigrationTable st) oid = some m ∧
          m.applied = false ∧
          (handleApplyMigration runSql updErr now cm st oid).2.1.migrations =
            setApplied st.migrations m.id now) ∧
       idFieldsPreserved st.migrations
         (handleApplyMigration runSql updErr now cm st oid).2.1.migrations ∧
       (StoreInv st.migrations →
         StoreInv
           (handleApplyMigration runSql updErr now cm st
             oid).2.1.migrations)) ∧
    (∀ (runSql : SqlSem) (updErr : Option String) (cm : ConnModule)
       (st : DbState)
       (oid : Option String),
       ((handleRollbackMigration runSql updErr cm st oid).2.1.migrations =
          st.migrations ∨
        ∃ m, findRecord (ensureMigrationTable st) oid = some m ∧
          m.applied = true ∧
          (handleRollbackMigration runSql updErr cm st oid).2.1.migrations =
            setRolledBack st.migrations m.id) ∧
       idFieldsPreserved st.migrations
         (handleRollbackMigration runSql updErr cm st oid).2.1.migrations ∧
       (StoreInv st.migrations →
         StoreInv
           (handleRollbackMigration runSql updErr cm st
             oid).2.1.migrations)) ∧
    (∀ (cm : ConnModule) (st : DbState),
       (handleListMigrations cm st).2.migrations = st.migrations ∧
       (handleGetMigrationStatus cm st).2.migrations = st.migrations) ∧
    (∀ (newId : String) (now : Nat) (cm : ConnModule) (st : DbState)
       (args : CreateArgs),
       StoreInv st.migrations →
       StoreInv (handleCreateMigration newId now cm st args).2.migrations) := by
  refine ⟨create_behavior, ?_, ?_, readonly_handlers_state, create_preserves_inv⟩
  · intro runSql updErr now cm st oid
    exact ⟨apply_state_shape runSql updErr now cm st oid,
           (apply_preserves_fields_inv runSql updErr now cm st oid).1,
           (apply_preserves_fields_inv runSql updErr now cm st oid).2⟩
  · intro runSql updErr cm st oid
    exact ⟨rollback_state_shape runSql updErr cm st oid,
           (rollback_preserves_fields_inv runSql updErr cm st oid).1,
           (rollback_preserves_fields_inv runSql updErr cm st oid).2⟩

/-- Claim C6 witness: the invariants instantiated on a concrete store. -/
theorem migration_record_invariants_witness :
    handleCreateMigration "m9" 7 exConnUp exDb1 exArgs =
      (if exDb1.migrations.any (fun r => r.name == "add_comments") then
        (.returned (.failure dupKeyMsg), ensureMigrationTable exDb1)
      else
        (.returned (.success
           { migration := { id := "m9", name := "add_comments", createdAt := 7 },
             message := createdMsg "add_comments" }),
         { tableExists := true,
           migrations := exDb1.migrations ++
             [{ id := "m9", name := "add_comments",
                upSql := "CREATE TABLE comments ()",
                downSql := "DROP TABLE comments",
                applied := false, appliedAt := none, createdAt := 7 }],
           schema := exDb1.schema })) ∧
    idFieldsPreserved exDb1.migrations
      (handleApplyMigration exOkSql none 9 exConnUp exDb1
        (some "m1")).2.1.migrations ∧
    StoreInv
      (handleApplyMigration exOkSql none 9 exConnUp exDb1
        (some "m1")).2.1.migrations ∧
    idFieldsPreserved exDb1.migrations
      (handleRollbackMigration exOkSql none exConnUp exDb1
        (some "m2")).2.1.migrations ∧
    StoreInv
      (handleRollbackMigration exOkSql none exConnUp exDb1
        (some "m2")).2.1.migrations ∧
    (handleListMigrations exConnUp exDb1).2.migrations = exDb1.migrations ∧
    StoreInv (handleCreateMigration "m9" 7 exConnUp exDb1 exArgs).2.migrations :=
  ⟨migration_record_invariants.1 "m9" 7 exConnUp exDb1 exArgs
     { connected := true } "add_comments" "CREATE TABLE comments ()"
     "DROP TABLE comments" rfl rfl,
   (migration_record_invariants.2.1 exOkSql none 9 exConnUp exDb1
     (some "m1")).2.1,
   (migration_record_invariants.2.1 exOkSql none 9 exConnUp exDb1
     (some "m1")).2.2 (by decide),
   (migration_record_invariants.2.2.1 exOkSql none exConnUp exDb1
     (some "m2")).2.1,
   (migration_record_invariants.2.2.1 exOkSql none exConnUp exDb1
     (some "m2")).2.2 (by decide),
   (migration_record_invariants.2.2.2.1 exConnUp exDb1).1,
   migration_record_invariants.2.2.2.2 "m9" 7 exConnUp exDb1 exArgs
     (by decide)⟩

/-- Claim C7 counterexample: `apply_migration` does not validate its
arguments.  Called with no `migrationId` at all, the handler still ensures
the store table (a store side effect) and returns the NotFound database
error rendering the missing value as the string "undefined" — not a
ValidationError. -/
theorem apply_missing_id_reaches_store :
    handleApplyMigration exOkSql none 0 exConnUp exDb0 none =
      (.returned (.failure (notFoundMsg none)),
       { tableExists := true, migrations := [], schema := [] }, []) ∧
    notFoundMsg none =
      "Migración con ID " ++ sq ++ "undefined" ++ sq ++ " no encontrada" :=
  ⟨rfl, rfl⟩

/-- Claim C7 (amended): `create_migration` schema-validates its arguments
before any business logic or SQL runs — malformed input makes it throw the
validation error with the state untouched — but `apply_migration` and
`rollback_migration` perform no runtime validation: a missing `migrationId`
flows into the store query as a null parameter and produces the NotFound
result after the store has been touched. -/
theorem validation_boundary_amended :
    (∀ (newId : String) (now : Nat) (cm : ConnModule) (st : DbState)
       (args : CreateArgs),
       args.name = none ∨ args.up = none ∨ args.down = none →
       ∃ e, handleCreateMigration newId now cm st args = (.raised e, st)) ∧
    (∀ (runSql : SqlSem) (updErr : Option String) (now : Nat)
       (cm : ConnModule) (st : DbState)
       (c : ConnInstance), cm.conn = some c →
       handleApplyMigration runSql updErr now cm st none =
         (.returned (.failure (notFoundMsg none)),
          ensureMigrationTable st, [])) ∧
    (∀ (runSql : SqlSem) (updErr : Option String) (cm : ConnModule)
       (st : DbState) (c : ConnInstance),
       cm.conn = some c →
       handleRollbackMigration runSql updErr cm st none =
         (.returned (.failure (notFoundMsg none)),
          ensureMigrationTable st, [])) := by
  refine ⟨create_validates_first, ?_, ?_⟩
  · intro runSql updErr now cm st c hc
    exact (missing_id_rejected runSql updErr now cm st c none hc rfl).1
  · intro runSql updErr cm st c hc
    exact (missing_id_rejected runSql updErr 0 cm st c none hc rfl).2

/-- Claim C7 (amended) witness. -/
theorem validation_boundary_amended_witness :
    (∃ e, handleCreateMigration "m9" 7 exConnUp exDb0 exNoArgs =
      (.raised e, exDb0)) ∧
    handleApplyMigration exOkSql none 0 exConnUp exDb1 none =
      (.returned (.failure (notFoundMsg none)),
       ensureMigrationTable exDb1, []) ∧
    handleRollbackMigration exOkSql none exConnUp exDb1 none =
      (.returned (.failure (notFoundMsg none)),
       ensureMigrationTable exDb1, []) :=
  ⟨validation_boundary_amended.1 "m9" 7 exConnUp exDb0 exNoArgs (Or.inl rfl),
   validation_boundary_amended.2.1 exOkSql none 0 exConnUp exDb1
     { connected := true } rfl,
   validation_boundary_amended.2.2 exOkSql none exConnUp exDb1
     { connected := true } rfl⟩

/-- Claim C8: `get()` before `init` fails with NotInitialized; after `init`
followed by `close` it fails with NotInitialized again; `close` is
idempotent and never raises (closing twice, or closing when never opened,
leaves a closed module); and an operation that needs the connection raises
the NotInitialized error when the singleton is unset. -/
theorem connection_lifecycle_not_initialized (s : ConnModule)
    (ee ee2 : Option String) (st : DbState) :
    getConnection { conn := none } = .error notInitializedMsg ∧
    getConnection (closeConnection ee (initConnection none s).2) =
      .error notInitializedMsg ∧
    closeConnection ee { conn := none } = { conn := none } ∧
    closeConnection ee (closeConnection ee2 s) = closeConnection ee2 s ∧
    (handleListMigrations { conn := none } st).1 =
      .raised notInitializedMsg := by
  refine ⟨rfl, rfl, rfl, ?_, rfl⟩
  cases hs : s.conn <;> simp [closeConnection, hs]

/-- Claim C9: `get_migration_status` reports the number of records, the
number applied, the number pending (with applied + pending = total), and
the maximum `appliedAt` among applied records (absent when none), for any
store satisfying the record invariant. -/
theorem migration_status_aggregates (cm : ConnModule) (st : DbState)
    (c : ConnInstance) (hc : cm.conn = some c)
    (hinv : StoreInv st.migrations) :
    handleGetMigrationStatus cm st =
      (.returned (.success
        { totalMigrations := st.migrations.length,
          appliedMigrations :=
            (st.migrations.filter (fun r => r.applied)).length,
          pendingMigrations :=
            (st.migrations.filter (fun r => !r.applied)).length,
          lastAppliedAt := lastAppliedAmongApplied st.migrations }),
       ensureMigrationTable st) ∧
    (st.migrations.filter (fun r => r.applied)).length +
      (st.migrations.filter (fun r => !r.applied)).length =
      st.migrations.length :=
  ⟨status_behavior cm st c hc hinv, length_filter_partition st.migrations⟩

/-- Claim C9 witness: three migrations with exactly one applied yield
`{total:3, applied:1, pending:2, lastAppliedAt:5}`. -/
theorem migration_status_aggregates_witness :
    handleGetMigrationStatus exConnUp exDb3 =
      (.returned (.success
        { totalMigrations := 3, appliedMigrations := 1,
          pendingMigrations := 2, lastAppliedAt := some 5 }),
       exDb3) ∧
    (exDb3.migrations.filter (fun r => r.applied)).length +
      (exDb3.migrations.filter (fun r => !r.applied)).length =
      exDb3.migrations.length :=
  ⟨((migration_status_aggregates exConnUp exDb3 { connected := true }
      rfl (by decide)).1).trans (by rfl),
   (migration_status_aggregates exConnUp exDb3 { connected := true }
      rfl (by decide)).2⟩

/-- Claim C10: initialization is not atomic on failure.  When the dial
fails, `initConnection` propagates the error but has already replaced the
process-wide singleton with the new, never-connected instance, so a
subsequent `get()` returns that unconnected handle instead of failing with
NotInitialized. -/
theorem init_failure_leaves_unconnected_singleton (s : ConnModule)
    (e : String) :
    initConnection (some e) s =
      (.error e, { conn := some { connected := false } }) ∧
    getConnection { conn := some { connected := false } } =
      .ok { connected := false } ∧
    SupabaseConnection.connect (some e) { connected := false } = .error e :=
  ⟨rfl, rfl, rfl⟩

end Mcp
